import Mathlib

/-!
Verification development for the cdrs client driver core:
the frame codec, the single-connection facade (src/client.rs) and the
SSL connection-pool manager (src/cluster/ssl_connection_pool.rs).

Bytes are modelled as natural numbers (each byte reduced mod 256 at the
point where the source writes it to the wire).  Fallible operations
return `Except Err`.  The I/O behaviour of a socket is modelled by an
explicit state (`TcpStream` / `TransportTls`) holding the bytes the peer
will send and the acceptance behaviour of the write system call, and
every operation additionally produces a trace of I/O / guard events so
that ordering and mutual-exclusion properties can be stated.
-/

namespace Cdrs

/-- Big-endian 2-byte encoding of a natural number (low 16 bits). -/
def be16 (n : Nat) : List Nat := [n / 256 % 256, n % 256]

/-- Big-endian 4-byte encoding of a natural number (low 32 bits). -/
def be32 (n : Nat) : List Nat :=
  [n / 16777216 % 256, n / 65536 % 256, n / 256 % 256, n % 256]

/-- Big-endian 8-byte encoding of a natural number (low 64 bits). -/
def be64 (n : Nat) : List Nat :=
  be32 (n / 4294967296) ++ be32 n

/-- Decode a 4-byte big-endian length from its four bytes. -/
def de32 (a b c d : Nat) : Nat := ((a * 256 + b) * 256 + c) * 256 + d

/-- The bytes of a Rust string (UTF-8 code points; ASCII in every use here). -/
def strBytes (s : String) : List Nat := s.toList.map Char.toNat

/-- Modelled from the spec: protocol `[string]`, a short-length-prefixed byte string. -/
def encodeStr (s : List Nat) : List Nat := be16 s.length ++ s

/-- Modelled from the spec: protocol `[long string]`, a 4-byte-length-prefixed byte string. -/
def encodeLongStr (s : List Nat) : List Nat := be32 s.length ++ s

/-- Modelled from the spec: protocol `[string map]`, a short pair count then
length-prefixed key/value strings. -/
def encodeStringMap (m : List (List Nat × List Nat)) : List Nat :=
  be16 m.length ++ m.foldr (fun kv acc => encodeStr kv.1 ++ encodeStr kv.2 ++ acc) []

/-- The protocol opcodes (spec section 3). -/
inductive Opcode where
  | error
  | startup
  | ready
  | authenticate
  | options
  | supported
  | query
  | result
  | prepare
  | execute
  | register
  | event
  | batch
  | authChallenge
  | authResponse
  | authSuccess
deriving DecidableEq

/-- Wire byte of each opcode. -/
def Opcode.toByte : Opcode → Nat
  | .error => 0
  | .startup => 1
  | .ready => 2
  | .authenticate => 3
  | .options => 5
  | .supported => 6
  | .query => 7
  | .result => 8
  | .prepare => 9
  | .execute => 10
  | .register => 11
  | .event => 12
  | .batch => 13
  | .authChallenge => 14
  | .authResponse => 15
  | .authSuccess => 16

/-- Recognise an opcode byte; unknown bytes are a protocol error. -/
def Opcode.fromByte : Nat → Option Opcode
  | 0 => some .error
  | 1 => some .startup
  | 2 => some .ready
  | 3 => some .authenticate
  | 5 => some .options
  | 6 => some .supported
  | 7 => some .query
  | 8 => some .result
  | 9 => some .prepare
  | 10 => some .execute
  | 11 => some .register
  | 12 => some .event
  | 13 => some .batch
  | 14 => some .authChallenge
  | 15 => some .authResponse
  | 16 => some .authSuccess
  | _ => Option.none

/-- Consistency levels (spec section 3); an opaque selector with a wire code. -/
inductive Consistency where
  | any
  | one
  | two
  | three
  | quorum
  | all
  | localQuorum
  | eachQuorum
  | serial
  | localSerial
  | localOne
deriving DecidableEq

/-- Wire code of a consistency level. -/
def Consistency.toCode : Consistency → Nat
  | .any => 0
  | .one => 1
  | .two => 2
  | .three => 3
  | .quorum => 4
  | .all => 5
  | .localQuorum => 6
  | .eachQuorum => 7
  | .serial => 8
  | .localSerial => 9
  | .localOne => 10

/-- Wide-length-prefixed opaque blob (paging state and similar tokens). -/
abbrev CBytes := List Nat

/-- Short-length-prefixed opaque blob (prepared statement identifiers). -/
abbrev CBytesShort := List Nat

/-- A bound query value: present bytes, explicit null, or not-set. -/
inductive Value where
  | bytes (bs : List Nat)
  | null
  | notSet
deriving DecidableEq

/-- Modelled from the spec: value encoding is length-prefixed bytes; the
null / not-set sentinels are the signed 32-bit values -1 and -2. -/
def Value.encode : Value → List Nat
  | .bytes bs => be32 bs.length ++ bs
  | .null => [255, 255, 255, 255]
  | .notSet => [255, 255, 255, 254]

/-- Modelled from the spec: a value list is a short count then each value. -/
def encodeValues (vs : List Value) : List Nat :=
  be16 vs.length ++ vs.foldr (fun v acc => v.encode ++ acc) []

/-- The parameter bundle of a QUERY / EXECUTE request (spec section 3). -/
structure ParamsReqQuery where
  consistency : Consistency
  values : Option (List Value)
  withNames : Option Bool
  skipMetadata : Bool
  pageSize : Option Int
  pagingState : Option CBytes
  serialConsistency : Option Consistency
  timestamp : Option Int
deriving DecidableEq

/-- Modelled from the spec: the flags byte records exactly which optional
fields of the bundle are present. -/
def queryFlags (p : ParamsReqQuery) : Nat :=
  (if p.values.isSome then 1 else 0) +
  (if p.skipMetadata then 2 else 0) +
  (if p.pageSize.isSome then 4 else 0) +
  (if p.pagingState.isSome then 8 else 0) +
  (if p.serialConsistency.isSome then 16 else 0) +
  (if p.timestamp.isSome then 32 else 0) +
  (if p.withNames = some true then 64 else 0)

/-- Two's-complement bytes of a signed 32-bit integer. -/
def i32bytes (i : Int) : List Nat := be32 (i % 4294967296).toNat

/-- Two's-complement bytes of a signed 64-bit integer. -/
def i64bytes (i : Int) : List Nat := be64 (i % 18446744073709551616).toNat

/-- Modelled from the spec: serialized ParamsReqQuery — consistency code,
flags byte, then each present optional field in the fixed order
values, page size, paging state, serial consistency, timestamp. -/
def serializeParams (p : ParamsReqQuery) : List Nat :=
  be16 p.consistency.toCode ++ [queryFlags p % 256] ++
  (match p.values with
    | some vs => encodeValues vs
    | Option.none => []) ++
  (match p.pageSize with
    | some n => i32bytes n
    | Option.none => []) ++
  (match p.pagingState with
    | some bs => be32 bs.length ++ bs
    | Option.none => []) ++
  (match p.serialConsistency with
    | some c => be16 c.toCode
    | Option.none => []) ++
  (match p.timestamp with
    | some t => i64bytes t
    | Option.none => [])

/-- A protocol frame: header fields plus opaque body (spec section 3). -/
structure Frame where
  version : Nat
  flags : Nat
  stream : Nat
  opcode : Opcode
  body : List Nat
deriving DecidableEq

/-- Modelled from the spec (section 6, bit-exact): version byte, flags byte,
2-byte stream id, opcode byte, 4-byte big-endian body length, body bytes. -/
def Frame.into_cbytes (f : Frame) : List Nat :=
  [f.version % 256, f.flags % 256] ++ be16 f.stream ++ [f.opcode.toByte] ++
  be32 f.body.length ++ f.body

/-- Header fields small enough to survive the wire encoding unchanged. -/
def Frame.wellFormed (f : Frame) : Prop :=
  f.version < 256 ∧ f.flags < 256 ∧ f.stream < 65536 ∧ f.body.length < 4294967296

instance (f : Frame) : Decidable f.wellFormed := by
  unfold Frame.wellFormed
  infer_instance

/-- Modelled from the spec: the STARTUP option map holds at least the CQL
version and, only when a compression algorithm is supplied, its name. -/
def startupOptions : Option String → List (List Nat × List Nat)
  | some c => [(strBytes "CQL_VERSION", strBytes "3.0.0"),
               (strBytes "COMPRESSION", strBytes c)]
  | Option.none => [(strBytes "CQL_VERSION", strBytes "3.0.0")]

/-- Modelled from the spec: a STARTUP request frame whose body is the string
map of options. -/
def Frame.new_req_startup (compression : Option String) : Frame :=
  ⟨4, 0, 0, Opcode.startup, encodeStringMap (startupOptions compression)⟩

/-- Modelled from the spec: an OPTIONS request frame with empty body. -/
def Frame.new_req_options : Frame :=
  ⟨4, 0, 0, Opcode.options, []⟩

/-- Modelled from the spec: a PREPARE request frame whose body is the
length-prefixed query string. -/
def Frame.new_req_prepare (query : String) : Frame :=
  ⟨4, 0, 0, Opcode.prepare, encodeLongStr (strBytes query)⟩

/-- Modelled from the spec: an EXECUTE request frame whose body is the
prepared statement id followed by the serialized parameter bundle. -/
def Frame.new_req_execute (id : CBytesShort) (queryParameters : ParamsReqQuery) : Frame :=
  ⟨4, 0, 0, Opcode.execute, encodeStr id ++ serializeParams queryParameters⟩

/-- Modelled from the spec: a QUERY request frame whose body is the
length-prefixed query string followed by the serialized parameter bundle. -/
def Frame.new_req_query (query : String) (consistency : Consistency)
    (values : Option (List Value)) (withNames : Option Bool)
    (pageSize : Option Int) (pagingState : Option CBytes)
    (serialConsistency : Option Consistency) (timestamp : Option Int) : Frame :=
  ⟨4, 0, 0, Opcode.query,
    encodeLongStr (strBytes query) ++
      serializeParams ⟨consistency, values, withNames, false, pageSize,
        pagingState, serialConsistency, timestamp⟩⟩

/-- Error taxonomy of the embedding (spec section 7). -/
inductive Err where
  | ioClone
  | ioWrite
  | ioRead
  | badOpcode (b : Nat)
  | decompressFailed
  | poolBuild
  | resolve
  | poolTimeout
deriving DecidableEq

/-- A pluggable decompression strategy over byte buffers. -/
structure Compression where
  decompress : List Nat → Except Err (List Nat)

/-- The `Compression::None` strategy: bytes pass through unchanged. -/
def Compression.none : Compression := ⟨fun bs => Except.ok bs⟩

/-- Modelled from the spec (section 4.1): read one frame — header, then
exactly the declared number of body bytes — validating the opcode, and
apply the decompression strategy to the body when the compression flag
(bit 0 of the flags byte) is set.  Returns the frame and the unread rest
of the stream; running out of bytes is an IO read failure. -/
def parse_frame (comp : Compression) (input : List Nat) :
    Except Err (Frame × List Nat) :=
  match input with
  | v :: fl :: s1 :: s2 :: op :: l1 :: l2 :: l3 :: l4 :: rest =>
    match Opcode.fromByte op with
    | Option.none => Except.error (Err.badOpcode op)
    | some opc =>
      let len := de32 l1 l2 l3 l4
      if len ≤ rest.length then
        let rawBody := rest.take len
        let remaining := rest.drop len
        if fl % 2 = 1 then
          match comp.decompress rawBody with
          | Except.ok body => Except.ok (⟨v, fl, s1 * 256 + s2, opc, body⟩, remaining)
          | Except.error e => Except.error e
        else
          Except.ok (⟨v, fl, s1 * 256 + s2, opc, rawBody⟩, remaining)
      else
        Except.error Err.ioRead
  | _ => Except.error Err.ioRead

instance {ε α : Type} [DecidableEq ε] [DecidableEq α] : DecidableEq (Except ε α) :=
  fun x y =>
    match x, y with
    | Except.ok a, Except.ok b =>
      if h : a = b then isTrue (by rw [h]) else isFalse (by intro hc; cases hc; exact h rfl)
    | Except.error a, Except.error b =>
      if h : a = b then isTrue (by rw [h]) else isFalse (by intro hc; cases hc; exact h rfl)
    | Except.ok _, Except.error _ => isFalse (by intro hc; cases hc)
    | Except.error _, Except.ok _ => isFalse (by intro hc; cases hc)

/-- I/O and exclusion-guard events, used to state ordering properties. -/
inductive Ev where
  | lock
  | unlock
  | write (bs : List Nat)
  | read (bs : List Nat)
deriving DecidableEq

/-- Whether an event is a write of request bytes. -/
def Ev.isWrite : Ev → Bool
  | .write _ => true
  | _ => false

/-- Whether an event is a read of response bytes. -/
def Ev.isRead : Ev → Bool
  | .read _ => true
  | _ => false

/-- The bytes a parse consumed, given the full input and the unread rest. -/
def consumedBytes (input rest : List Nat) : List Nat :=
  input.take (input.length - rest.length)

/-- State of a plain TCP socket as the single-connection facade sees it:
whether `try_clone` succeeds, how many bytes one `write` call accepts
(`Option.none` means the write call itself fails), and the bytes the peer
will send. -/
structure TcpStream where
  cloneOk : Bool
  writeCap : Option Nat
  input : List Nat
deriving DecidableEq

/-- The single-connection facade (src/client.rs `struct CDRS`). -/
structure CDRS where
  tcp : TcpStream
deriving DecidableEq

/-- Outcome of one facade operation: the parsed response or the error, the
socket state afterwards, and the trace of I/O events. -/
structure OpResult where
  res : Except Err Frame
  post : TcpStream
  trace : List Ev
deriving DecidableEq

/-- The shared body of every facade operation in src/client.rs: clone the
owned socket with `try_clone` (returning the IoError before any I/O if it
fails), issue one `write` call with the encoded request (the source
discards the returned byte count, so the transport keeps only the bytes
the call accepted), then `parse_frame` the response.  The old synchronous
parser applies no decompression strategy, which `Compression.none`
renders exactly (its decompress is the identity). -/
def CDRS.roundTrip (c : CDRS) (reqBytes : List Nat) : OpResult :=
  if c.tcp.cloneOk then
    match c.tcp.writeCap with
    | some cap =>
      match parse_frame Compression.none c.tcp.input with
      | Except.ok (f, remaining) =>
        ⟨Except.ok f, { c.tcp with input := remaining },
          [Ev.write (reqBytes.take cap), Ev.read (consumedBytes c.tcp.input remaining)]⟩
      | Except.error e =>
        ⟨Except.error e, { c.tcp with input := [] },
          [Ev.write (reqBytes.take cap), Ev.read c.tcp.input]⟩
    | Option.none => ⟨Except.error Err.ioWrite, c.tcp, []⟩
  else
    ⟨Except.error Err.ioClone, c.tcp, []⟩

/-- src/client.rs `CDRS::new`: connect a plain TCP socket to the address
with the default port 9042 appended, mapping the socket into the facade;
the network environment decides whether the connect succeeds. -/
def CDRS.new (net : String → Except Err TcpStream) (addr : String) :
    Except Err CDRS :=
  (net (addr ++ ":9042")).map fun socket => ⟨socket⟩

/-- src/client.rs `CDRS::start`: write a STARTUP frame built with no
compression, then parse one response frame. -/
def CDRS.start (c : CDRS) : OpResult :=
  c.roundTrip (Frame.new_req_startup Option.none).into_cbytes

/-- src/client.rs `CDRS::options`. -/
def CDRS.options (c : CDRS) : OpResult :=
  c.roundTrip Frame.new_req_options.into_cbytes

/-- src/client.rs `CDRS::prepare`. -/
def CDRS.prepare (c : CDRS) (query : String) : OpResult :=
  c.roundTrip (Frame.new_req_prepare query).into_cbytes

/-- src/client.rs `CDRS::execute`. -/
def CDRS.execute (c : CDRS) (id : CBytesShort) (queryParameters : ParamsReqQuery) :
    OpResult :=
  c.roundTrip (Frame.new_req_execute id queryParameters).into_cbytes

/-- src/client.rs `CDRS::query`. -/
def CDRS.query (c : CDRS) (query : String) (consistency : Consistency)
    (values : Option (List Value)) (withNames : Option Bool)
    (pageSize : Option Int) (pagingState : Option CBytes)
    (serialConsistency : Option Consistency) (timestamp : Option Int) : OpResult :=
  c.roundTrip (Frame.new_req_query query consistency values withNames pageSize
    pagingState serialConsistency timestamp).into_cbytes

/-- State of one TLS transport inside the pool: write-call acceptance and
the bytes the peer will send.  The tokio `Mutex` wrapping it is modelled
through the lock / unlock events of the traces. -/
structure TransportTls where
  writeCap : Option Nat
  input : List Nat
deriving DecidableEq

/-- Outcome of a pool-manager operation on a mutex-wrapped transport. -/
structure PoolOpResult where
  res : Except Err TransportTls
  trace : List Ev
deriving DecidableEq

/-- The async `parse_frame(&conn, compressor)` used by the pool manager: it
receives the mutex by reference, so it acquires the guard itself, reads
one frame from the transport, and releases the guard when it returns on
every path. -/
def parse_frame_locked (comp : Compression) (conn : TransportTls) :
    Except Err (Frame × TransportTls) × List Ev :=
  match parse_frame comp conn.input with
  | Except.ok (f, remaining) =>
    (Except.ok (f, { conn with input := remaining }),
      [Ev.lock, Ev.read (consumedBytes conn.input remaining), Ev.unlock])
  | Except.error e =>
    (Except.error e, [Ev.lock, Ev.read conn.input, Ev.unlock])

/-- src/cluster/ssl_connection_pool.rs `SslConnectionsManager`. -/
structure SslConnectionsManager where
  addr : String
  auth : String
deriving DecidableEq

/-- `SslConnectionsManager::new`. -/
def SslConnectionsManager.new (addr : String) (auth : String) :
    SslConnectionsManager :=
  ⟨addr, auth⟩

/-- src/cluster/ssl_connection_pool.rs `is_valid`: encode an OPTIONS frame;
`conn.lock().await.write(..).await?` acquires the guard only for the
write statement (the temporary guard is dropped when the statement ends,
also when the write fails and the function returns the error), then
`parse_frame(&conn, &Compression::None)` re-acquires the guard to read
one frame with no decompression; on success the connection itself is
returned. -/
def is_valid (conn : TransportTls) : PoolOpResult :=
  let optionsBytes := Frame.new_req_options.into_cbytes
  match conn.writeCap with
  | Option.none => ⟨Except.error Err.ioWrite, [Ev.lock, Ev.unlock]⟩
  | some cap =>
    let writeTrace := [Ev.lock, Ev.write (optionsBytes.take cap), Ev.unlock]
    match parse_frame_locked Compression.none conn with
    | (Except.ok (_, conn2), parseTrace) =>
      ⟨Except.ok conn2, writeTrace ++ parseTrace⟩
    | (Except.error e, parseTrace) =>
      ⟨Except.error e, writeTrace ++ parseTrace⟩

/-- src/cluster/ssl_connection_pool.rs `has_broken`: constantly false. -/
def has_broken (_conn : TransportTls) : Bool := false

/-- Per-node pool configuration (spec section 3). -/
structure NodeSslConfig where
  addr : String
  authenticator : String
  maxSize : Nat
  minIdle : Option Nat
  maxLifetime : Option Nat
  idleTimeout : Option Nat
  connectionTimeout : Nat
deriving DecidableEq

/-- The sizing / lifetime policy a pool is built with. -/
structure PoolConfig where
  maxSize : Nat
  minIdle : Option Nat
  maxLifetime : Option Nat
  idleTimeout : Option Nat
  connectionTimeout : Nat
deriving DecidableEq

/-- Modelled from the spec: the pool framework builder (the r2d2 `Builder`
used by new_ssl_pool, not part of src/) starts from framework defaults
and each setter replaces one policy field. -/
structure Builder where
  config : PoolConfig
deriving DecidableEq

/-- Builder with the framework defaults. -/
def Builder.new : Builder :=
  ⟨⟨10, Option.none, some 1800, some 600, 30⟩⟩

/-- Set the maximum pool size. -/
def Builder.max_size (b : Builder) (n : Nat) : Builder :=
  ⟨{ b.config with maxSize := n }⟩

/-- Set the minimum idle count. -/
def Builder.min_idle (b : Builder) (n : Option Nat) : Builder :=
  ⟨{ b.config with minIdle := n }⟩

/-- Set the maximum connection lifetime. -/
def Builder.max_lifetime (b : Builder) (n : Option Nat) : Builder :=
  ⟨{ b.config with maxLifetime := n }⟩

/-- Set the idle timeout. -/
def Builder.idle_timeout (b : Builder) (n : Option Nat) : Builder :=
  ⟨{ b.config with idleTimeout := n }⟩

/-- Set the connection-acquisition timeout. -/
def Builder.connection_timeout (b : Builder) (n : Nat) : Builder :=
  ⟨{ b.config with connectionTimeout := n }⟩

/-- A built pool: its policy and its connection manager. -/
structure Pool where
  config : PoolConfig
  manager : SslConnectionsManager
deriving DecidableEq

/-- One resolved socket address (abstract). -/
abbrev SocketAddr := Nat

/-- Network-side environment of new_ssl_pool: whether building the pool
(spawning the initial connections) succeeds, and how an address string
resolves to socket addresses. -/
structure NetEnv where
  buildOk : Bool
  resolve : String → Except Err (List SocketAddr)

/-- Modelled from the spec: `Builder::build` hands the manager to the pool
framework; a build failure is reported as a pool error. -/
def Builder.build (b : Builder) (m : SslConnectionsManager) (env : NetEnv) :
    Except Err Pool :=
  if env.buildOk then Except.ok ⟨b.config, m⟩ else Except.error Err.poolBuild

/-- The pool wrapper returned to callers (`ConnectionPool` with its node
address). -/
structure SslConnectionPool where
  pool : Pool
  addr : SocketAddr
deriving DecidableEq

/-- `ConnectionPool::new`. -/
def SslConnectionPool.new (pool : Pool) (addr : SocketAddr) : SslConnectionPool :=
  ⟨pool, addr⟩

/-- src/cluster/ssl_connection_pool.rs `new_ssl_pool`: create the manager,
build the pool with exactly the node config's five policy fields, then
resolve the node address and keep its first socket address; no address
is the "Cannot parse address" error. -/
def new_ssl_pool (env : NetEnv) (nodeConfig : NodeSslConfig) :
    Except Err SslConnectionPool := do
  let manager := SslConnectionsManager.new nodeConfig.addr nodeConfig.authenticator
  let pool ← (((((Builder.new.max_size nodeConfig.maxSize).min_idle
    nodeConfig.minIdle).max_lifetime nodeConfig.maxLifetime).idle_timeout
    nodeConfig.idleTimeout).connection_timeout nodeConfig.connectionTimeout).build
    manager env
  let addrs ← env.resolve nodeConfig.addr
  match addrs.head? with
  | Option.none => Except.error Err.resolve
  | some a => Except.ok (SslConnectionPool.new pool a)

/-- The policy new_ssl_pool installs from a node config. -/
def builtPoolConfig (nodeConfig : NodeSslConfig) : PoolConfig :=
  ⟨nodeConfig.maxSize, nodeConfig.minIdle, nodeConfig.maxLifetime,
    nodeConfig.idleTimeout, nodeConfig.connectionTimeout⟩

/-- Abstract pool bookkeeping: how many connections are open and how many
of them sit idle in the pool. -/
structure PoolState where
  openConns : Nat
  idle : Nat
deriving DecidableEq

/-- Modelled from the spec (section 4.2 sizing policy): the pool framework
opens a new connection only below the maximum size, hands idle
connections out, takes them back, and closes idle connections on
lifetime / idle-timeout expiry or brokenness. -/
inductive PoolStep (cfg : PoolConfig) : PoolState → PoolState → Prop where
  | create (s : PoolState) (h : s.openConns < cfg.maxSize) :
      PoolStep cfg s ⟨s.openConns + 1, s.idle + 1⟩
  | checkout (s : PoolState) (h : 0 < s.idle) :
      PoolStep cfg s ⟨s.openConns, s.idle - 1⟩
  | checkin (s : PoolState) :
      PoolStep cfg s ⟨s.openConns, s.idle + 1⟩
  | close (s : PoolState) (h1 : 0 < s.openConns) (h2 : 0 < s.idle) :
      PoolStep cfg s ⟨s.openConns - 1, s.idle - 1⟩

/-- Modelled from the spec: one acquisition attempt — take an idle
connection, else open one below the maximum, else the attempt cannot be
satisfied within the acquisition timeout and fails with a timeout error. -/
def acquire (cfg : PoolConfig) (s : PoolState) : Except Err PoolState :=
  if 0 < s.idle then
    Except.ok ⟨s.openConns, s.idle - 1⟩
  else if s.openConns < cfg.maxSize then
    Except.ok ⟨s.openConns + 1, s.idle⟩
  else
    Except.error Err.poolTimeout

/-- The claim that the exclusion guard is held continuously across the
round trip: no unlock event strictly between a write event and a later
read event of the trace. -/
def guardHeldThroughRoundTrip (tr : List Ev) : Prop :=
  ∀ i j k : Fin tr.length, i < j → j < k →
    (tr.get i).isWrite = true → (tr.get k).isRead = true → tr.get j ≠ Ev.unlock

instance (tr : List Ev) : Decidable (guardHeldThroughRoundTrip tr) := by
  unfold guardHeldThroughRoundTrip
  infer_instance

/-- The encoded STARTUP request the facade sends. -/
def startupBytes : List Nat := (Frame.new_req_startup Option.none).into_cbytes

/-- A READY response frame (version byte 0x84 marks the response direction). -/
def frameReady0 : Frame := ⟨132, 0, 0, Opcode.ready, []⟩

/-- A SUPPORTED response frame whose compression flag bit is set. -/
def frameSupported1 : Frame := ⟨132, 1, 0, Opcode.supported, [10, 20, 30]⟩

/-- A healthy socket with a READY response queued. -/
def tcpReady : TcpStream := ⟨true, some 1000, frameReady0.into_cbytes⟩

/-- A socket whose write call accepts only one byte per call. -/
def tcpShortWrite : TcpStream := ⟨true, some 1, frameReady0.into_cbytes⟩

/-- A socket whose try_clone fails. -/
def tcpCloneFail : TcpStream := ⟨false, some 1000, frameReady0.into_cbytes⟩

/-- A pooled transport with a compressed-flag SUPPORTED response queued. -/
def connSupported : TransportTls := ⟨some 1000, frameSupported1.into_cbytes⟩

/-- A minimal parameter bundle. -/
def qp0 : ParamsReqQuery :=
  ⟨Consistency.one, Option.none, Option.none, false, Option.none, Option.none,
    Option.none, Option.none⟩

/-- An environment where pool build succeeds and every name resolves to
the single socket address 7. -/
def env0 : NetEnv := ⟨true, fun _ => Except.ok [7]⟩

/-- A concrete node configuration. -/
def nodeConfig0 : NodeSslConfig :=
  ⟨"127.0.0.1", "auth", 4, some 1, some 100, some 50, 30⟩

/-- The pool new_ssl_pool returns for env0 / nodeConfig0. -/
def pool0 : SslConnectionPool :=
  ⟨⟨builtPoolConfig nodeConfig0, ⟨"127.0.0.1", "auth"⟩⟩, 7⟩

/-- Decoding an opcode byte recovers the opcode. -/
theorem Opcode.fromByte_toByte (o : Opcode) : Opcode.fromByte o.toByte = some o := by
  cases o <;> rfl

/-- Reassembling the four big-endian length bytes of a 32-bit value
recovers it. -/
theorem de32_of_be32 (n : Nat) (h : n < 4294967296) :
    de32 (n / 16777216 % 256) (n / 65536 % 256) (n / 256 % 256) (n % 256) = n := by
  unfold de32
  omega

/-- Consumed bytes of a parse that stopped exactly at the frame boundary. -/
theorem consumedBytes_append (enc rest : List Nat) :
    consumedBytes (enc ++ rest) rest = enc := by
  unfold consumedBytes
  have h : (enc ++ rest).length - rest.length = enc.length := by
    simp [List.length_append]
  rw [h, List.take_left]

/-- The decoder inverts the encoder on any well-formed frame when the
strategy is `Compression.none`, whatever the frame's flags: the raw body
passes through unchanged and the trailing bytes are untouched. -/
theorem parse_frame_none_into_cbytes (f : Frame) (rest : List Nat)
    (hwf : f.wellFormed) :
    parse_frame Compression.none (f.into_cbytes ++ rest) = Except.ok (f, rest) := by
  obtain ⟨ver, fl, st, opc, body⟩ := f
  obtain ⟨h1, h2, h3, h4⟩ := hwf
  dsimp only at h1 h2 h3 h4
  have hv : ver % 256 = ver := Nat.mod_eq_of_lt h1
  have hfl : fl % 256 = fl := Nat.mod_eq_of_lt h2
  have hst : st / 256 % 256 * 256 + st % 256 = st := by omega
  have hlen : de32 (body.length / 16777216 % 256) (body.length / 65536 % 256)
      (body.length / 256 % 256) (body.length % 256) = body.length :=
    de32_of_be32 body.length h4
  have hle : body.length ≤ (body ++ rest).length := by
    simp [List.length_append]
  simp only [Frame.into_cbytes, be16, be32, List.cons_append, List.nil_append,
    List.append_assoc, hv, hfl]
  rw [parse_frame]
  simp only [Opcode.fromByte_toByte, hlen, if_pos hle, List.take_left, List.drop_left]
  by_cases hc : fl % 2 = 1
  · simp only [if_pos hc, Compression.none, hst]
  · simp only [if_neg hc, hst]

/-- The facade's shared clone-write-parse body on a socket whose pending
input starts with one well-formed frame: the request bytes the write call
accepted go out first, then exactly the frame's bytes are read. -/
theorem roundTrip_spec (c : CDRS) (req : List Nat) (cap : Nat) (f : Frame)
    (rest : List Nat)
    (hclone : c.tcp.cloneOk = true) (hcap : c.tcp.writeCap = some cap)
    (hin : c.tcp.input = f.into_cbytes ++ rest) (hwf : f.wellFormed) :
    c.roundTrip req =
      ⟨Except.ok f, { c.tcp with input := rest },
        [Ev.write (req.take cap), Ev.read f.into_cbytes]⟩ := by
  unfold CDRS.roundTrip
  rw [hclone, hcap, hin, parse_frame_none_into_cbytes f rest hwf]
  simp [consumedBytes_append]

/-- C1: the pool manager's validation operation writes an OPTIONS frame to
the connection and succeeds exactly when the write call succeeds and one
well-formed frame is then parsed from the connection — whatever that
frame's opcode — so a write, read, or decode failure surfaces as an
error. -/
theorem is_valid_ok_iff (conn : TransportTls) :
    ((∃ c2, (is_valid conn).res = Except.ok c2) ↔
      ((∃ cap, conn.writeCap = some cap) ∧
        ∃ fr, parse_frame Compression.none conn.input = Except.ok fr)) ∧
    (∀ cap, conn.writeCap = some cap →
      ∃ t, (is_valid conn).trace =
        Ev.lock :: Ev.write (Frame.new_req_options.into_cbytes.take cap) ::
          Ev.unlock :: t) := by
  cases hw : conn.writeCap with
  | none => simp [is_valid, hw]
  | some cap =>
    cases hp : parse_frame Compression.none conn.input with
    | ok fr =>
      obtain ⟨f, remaining⟩ := fr
      constructor
      · simp [is_valid, parse_frame_locked, hw, hp]
      · intro cap2 hcap2
        injection hcap2 with hcc
        subst hcc
        refine ⟨[Ev.lock, Ev.read (consumedBytes conn.input remaining), Ev.unlock], ?_⟩
        simp [is_valid, parse_frame_locked, hw, hp]
    | error e =>
      constructor
      · simp [is_valid, parse_frame_locked, hw, hp]
      · intro cap2 hcap2
        injection hcap2 with hcc
        subst hcc
        refine ⟨[Ev.lock, Ev.read conn.input, Ev.unlock], ?_⟩
        simp [is_valid, parse_frame_locked, hw, hp]

/-- C1 witness at a concrete connection: validation succeeds and its trace
starts with the guarded OPTIONS write. -/
theorem is_valid_ok_iff_witness :
    (∃ c2, (is_valid connSupported).res = Except.ok c2) ∧
    (∃ t, (is_valid connSupported).trace =
      Ev.lock :: Ev.write (Frame.new_req_options.into_cbytes.take 1000) ::
        Ev.unlock :: t) :=
  ⟨(is_valid_ok_iff connSupported).1.2
      ⟨⟨1000, rfl⟩, ⟨(frameSupported1, []), by decide⟩⟩,
    (is_valid_ok_iff connSupported).2 1000 rfl⟩

/-- C2: against a server requiring no authentication — the pending response
is a READY frame — start() sends the STARTUP frame and returns that
READY-opcode frame. -/
theorem start_sends_startup_returns_ready (c : CDRS) (f : Frame)
    (rest : List Nat) (cap : Nat)
    (hclone : c.tcp.cloneOk = true) (hcap : c.tcp.writeCap = some cap)
    (hfull : startupBytes.length ≤ cap)
    (hwf : f.wellFormed) (hready : f.opcode = Opcode.ready)
    (hin : c.tcp.input = f.into_cbytes ++ rest) :
    (CDRS.start c).trace = [Ev.write startupBytes, Ev.read f.into_cbytes] ∧
    (CDRS.start c).res = Except.ok f ∧ f.opcode = Opcode.ready := by
  have h := roundTrip_spec c startupBytes cap f rest hclone hcap hin hwf
  have hs : CDRS.start c = c.roundTrip startupBytes := rfl
  rw [hs, h]
  exact ⟨by rw [List.take_of_length_le hfull], rfl, hready⟩

/-- C2 witness: a concrete no-auth handshake returns the READY frame. -/
theorem start_sends_startup_returns_ready_witness :
    (CDRS.start ⟨tcpReady⟩).trace =
      [Ev.write startupBytes, Ev.read frameReady0.into_cbytes] ∧
    (CDRS.start ⟨tcpReady⟩).res = Except.ok frameReady0 ∧
    frameReady0.opcode = Opcode.ready :=
  start_sends_startup_returns_ready ⟨tcpReady⟩ frameReady0 [] 1000 rfl rfl
    (by decide) (by decide) rfl (by decide)

/-- C8: the pool manager's synchronous broken-check always answers false,
for every connection in every state. -/
theorem has_broken_always_false (conn : TransportTls) :
    has_broken conn = false := rfl

/-- C3, evaluated at the failing input: the source issues a single `write`
call and discards the byte count it returns, so on a transport whose
write call accepts one byte, start() puts only the first byte of the
encoded STARTUP frame on the wire — a strict prefix, not the complete
frame — and still proceeds to read the response and return it as a
success.  The complete encoded frame is therefore not fully written
before the response is read. -/
theorem start_short_write_incomplete :
    (CDRS.start ⟨tcpShortWrite⟩).res = Except.ok frameReady0 ∧
    (CDRS.start ⟨tcpShortWrite⟩).trace =
      [Ev.write (startupBytes.take 1), Ev.read frameReady0.into_cbytes] ∧
    startupBytes.take 1 ≠ startupBytes := by decide

/-- C6: frames exchanged before compression is negotiated are never
compressed.  start() sends the STARTUP frame built with no compression
option — its option map carries exactly the CQL version key — and the
validation round trip decodes under `Compression.none`, whose decompress
is the identity, so the response body is taken raw from the wire (here
even the compression flag of the response is irrelevant) and validation
succeeds. -/
theorem pre_negotiation_uncompressed (c : CDRS) (conn : TransportTls)
    (f : Frame) (rest : List Nat) (cap capc : Nat)
    (hclone : c.tcp.cloneOk = true) (hcap : c.tcp.writeCap = some cap)
    (hfull : startupBytes.length ≤ cap)
    (hcw : conn.writeCap = some capc)
    (hwf : f.wellFormed)
    (hin : conn.input = f.into_cbytes ++ rest) :
    ((∃ g, (CDRS.start c).trace = Ev.write startupBytes :: g) ∧
      (startupOptions Option.none).map Prod.fst = [strBytes "CQL_VERSION"]) ∧
    (parse_frame Compression.none conn.input = Except.ok (f, rest) ∧
      (is_valid conn).res = Except.ok ⟨some capc, rest⟩) := by
  have hparse : parse_frame Compression.none conn.input = Except.ok (f, rest) := by
    rw [hin]
    exact parse_frame_none_into_cbytes f rest hwf
  refine ⟨⟨?_, rfl⟩, hparse, ?_⟩
  · have hs : CDRS.start c = c.roundTrip startupBytes := rfl
    rw [hs]
    unfold CDRS.roundTrip
    rw [hclone, hcap]
    cases hp : parse_frame Compression.none c.tcp.input with
    | ok fr =>
      obtain ⟨g2, remaining⟩ := fr
      refine ⟨[Ev.read (consumedBytes c.tcp.input remaining)], ?_⟩
      simp [List.take_of_length_le hfull]
    | error e =>
      refine ⟨[Ev.read c.tcp.input], ?_⟩
      simp [List.take_of_length_le hfull]
  · unfold is_valid parse_frame_locked
    rw [hcw, hparse]

/-- C6 witness: a concrete pre-negotiation exchange where the response even
has its compression flag bit set; validation still succeeds on the raw
body. -/
theorem pre_negotiation_uncompressed_witness :
    ((∃ g, (CDRS.start ⟨tcpReady⟩).trace = Ev.write startupBytes :: g) ∧
      (startupOptions Option.none).map Prod.fst = [strBytes "CQL_VERSION"]) ∧
    (parse_frame Compression.none connSupported.input =
        Except.ok (frameSupported1, []) ∧
      (is_valid connSupported).res = Except.ok ⟨some 1000, []⟩) :=
  pre_negotiation_uncompressed ⟨tcpReady⟩ connSupported frameSupported1 [] 1000 1000
    rfl rfl (by decide) rfl (by decide) (by decide)

/-- C7, refuted at a live validation round trip: the guard acquired for the
write of the OPTIONS frame is a temporary dropped when the write
statement ends, and the decoder re-acquires the guard for the read, so an
unlock event stands strictly between the write and the read — the guard
is not held continuously over the round trip. -/
theorem is_valid_guard_not_continuous :
    ¬ guardHeldThroughRoundTrip (is_valid connSupported).trace := by decide

/-- C7 (amended): every validation round trip performs the write under one
guard acquisition and the read under a second, separate acquisition;
every acquired guard is released on every exit path, including the write
and parse failure paths (the trace is one of the two balanced shapes and
lock / unlock events pair up exactly). -/
theorem is_valid_guard_shape (conn : TransportTls) :
    ((is_valid conn).trace = [Ev.lock, Ev.unlock] ∨
      ∃ w r, (is_valid conn).trace =
        [Ev.lock, Ev.write w, Ev.unlock, Ev.lock, Ev.read r, Ev.unlock]) ∧
    (is_valid conn).trace.count Ev.lock = (is_valid conn).trace.count Ev.unlock := by
  cases hw : conn.writeCap with
  | none => simp [is_valid, hw]
  | some cap =>
    cases hp : parse_frame Compression.none conn.input with
    | ok fr =>
      obtain ⟨f, remaining⟩ := fr
      constructor
      · exact Or.inr ⟨Frame.new_req_options.into_cbytes.take cap,
          consumedBytes conn.input remaining,
          by simp [is_valid, parse_frame_locked, hw, hp]⟩
      · simp [is_valid, parse_frame_locked, hw, hp, List.count_cons]
    | error e =>
      constructor
      · exact Or.inr ⟨Frame.new_req_options.into_cbytes.take cap, conn.input,
          by simp [is_valid, parse_frame_locked, hw, hp]⟩
      · simp [is_valid, parse_frame_locked, hw, hp, List.count_cons]

/-- Full case analysis of new_ssl_pool: build failure, resolution failure,
empty resolution, or success at the first resolved address with the
node config's policy installed. -/
theorem new_ssl_pool_eq (env : NetEnv) (nodeConfig : NodeSslConfig) :
    new_ssl_pool env nodeConfig =
      (if env.buildOk then
        match env.resolve nodeConfig.addr with
        | Except.error e => Except.error e
        | Except.ok [] => Except.error Err.resolve
        | Except.ok (a :: _) =>
          Except.ok ⟨⟨builtPoolConfig nodeConfig,
            ⟨nodeConfig.addr, nodeConfig.authenticator⟩⟩, a⟩
      else Except.error Err.poolBuild) := by
  by_cases hb : env.buildOk
  · rw [if_pos hb]
    cases hr : env.resolve nodeConfig.addr with
    | ok addrs =>
      cases addrs with
      | nil =>
        simp only [new_ssl_pool, Builder.build, Builder.new, Builder.max_size,
          Builder.min_idle, Builder.max_lifetime, Builder.idle_timeout,
          Builder.connection_timeout, SslConnectionsManager.new,
          SslConnectionPool.new, builtPoolConfig, hb, hr, if_true]
        rfl
      | cons a l =>
        simp only [new_ssl_pool, Builder.build, Builder.new, Builder.max_size,
          Builder.min_idle, Builder.max_lifetime, Builder.idle_timeout,
          Builder.connection_timeout, SslConnectionsManager.new,
          SslConnectionPool.new, builtPoolConfig, hb, hr, if_true]
        rfl
    | error e =>
      simp only [new_ssl_pool, Builder.build, Builder.new, Builder.max_size,
        Builder.min_idle, Builder.max_lifetime, Builder.idle_timeout,
        Builder.connection_timeout, SslConnectionsManager.new, hb, hr, if_true]
      rfl
  · rw [if_neg hb]
    have hb2 : env.buildOk = false := by
      cases hbe : env.buildOk
      · rfl
      · exact absurd hbe hb
    simp only [new_ssl_pool, Builder.build, Builder.new, Builder.max_size,
      Builder.min_idle, Builder.max_lifetime, Builder.idle_timeout,
      Builder.connection_timeout, SslConnectionsManager.new, hb2, if_false]
    rfl

/-- Along any run of the spec-modelled pool framework, a state within the
size bound never steps beyond it. -/
theorem poolSteps_bound (cfg : PoolConfig) (s s2 : PoolState)
    (h : Relation.ReflTransGen (PoolStep cfg) s s2)
    (hs : s.openConns ≤ cfg.maxSize) : s2.openConns ≤ cfg.maxSize := by
  induction h with
  | refl => exact hs
  | tail hsteps hstep ih =>
    cases hstep with
    | create h3 => dsimp only; omega
    | checkout h3 => dsimp only; omega
    | checkin => dsimp only; omega
    | close h31 h32 => dsimp only; omega

/-- C5: a pool new_ssl_pool builds carries exactly the node config's
maximum size, minimum idle count, maximum lifetime, idle timeout, and
acquisition timeout; under the spec-modelled pool framework semantics no
state reachable from the empty pool ever has more connections open than
the configured maximum, and an acquisition that cannot be satisfied (no
idle connection, pool at the maximum) fails with the timeout error
rather than blocking. -/
theorem new_ssl_pool_policy (env : NetEnv) (nodeConfig : NodeSslConfig)
    (p : SslConnectionPool) (hp : new_ssl_pool env nodeConfig = Except.ok p) :
    p.pool.config = builtPoolConfig nodeConfig ∧
    (∀ s : PoolState,
      Relation.ReflTransGen (PoolStep p.pool.config) ⟨0, 0⟩ s →
        s.openConns ≤ nodeConfig.maxSize) ∧
    (∀ s : PoolState, s.idle = 0 → s.openConns = nodeConfig.maxSize →
      acquire p.pool.config s = Except.error Err.poolTimeout) := by
  have hcfg : p.pool.config = builtPoolConfig nodeConfig := by
    rw [new_ssl_pool_eq] at hp
    by_cases hb : env.buildOk
    · rw [if_pos hb] at hp
      cases hr : env.resolve nodeConfig.addr with
      | ok addrs =>
        rw [hr] at hp
        cases addrs with
        | nil => cases hp
        | cons a l =>
          injection hp with hp2
          rw [← hp2]
      | error e =>
        rw [hr] at hp
        cases hp
    · rw [if_neg hb] at hp
      cases hp
  refine ⟨hcfg, ?_, ?_⟩
  · intro s hreach
    have hb := poolSteps_bound p.pool.config ⟨0, 0⟩ s hreach (by simp)
    rw [hcfg] at hb
    exact hb
  · intro s hidle hopen
    unfold acquire
    rw [if_neg (by omega), if_neg (by rw [hcfg, hopen]; exact fun hc => absurd rfl (Nat.ne_of_lt hc))]

/-- C5 witness at a concrete environment and node config: the built pool
carries the config, the initial state respects the bound, and acquiring
from the saturated idle-free pool times out. -/
theorem new_ssl_pool_policy_witness :
    pool0.pool.config = builtPoolConfig nodeConfig0 ∧
    (⟨0, 0⟩ : PoolState).openConns ≤ nodeConfig0.maxSize ∧
    acquire pool0.pool.config ⟨4, 0⟩ = Except.error Err.poolTimeout := by
  have h := new_ssl_pool_policy env0 nodeConfig0 pool0 rfl
  exact ⟨h.1, h.2.1 ⟨0, 0⟩ Relation.ReflTransGen.refl, h.2.2 ⟨4, 0⟩ rfl rfl⟩

/-- C9: new_ssl_pool fails when pool construction fails and when the node
address string resolves to no socket address, and on success the
returned pool is associated with the first resolved socket address. -/
theorem new_ssl_pool_resolution (env : NetEnv) (nodeConfig : NodeSslConfig) :
    new_ssl_pool env nodeConfig =
      (if env.buildOk then
        match env.resolve nodeConfig.addr with
        | Except.error e => Except.error e
        | Except.ok [] => Except.error Err.resolve
        | Except.ok (a :: _) =>
          Except.ok ⟨⟨builtPoolConfig nodeConfig,
            ⟨nodeConfig.addr, nodeConfig.authenticator⟩⟩, a⟩
      else Except.error Err.poolBuild) :=
  new_ssl_pool_eq env nodeConfig

/-- C10: when cloning the owned transport handle fails, every operation of
the single-connection facade returns the IoError with an empty I/O trace
and the socket state unchanged — no bytes are written. -/
theorem clone_fail_no_bytes (c : CDRS) (q q2 : String) (id : CBytesShort)
    (qp : ParamsReqQuery) (consistency : Consistency)
    (values : Option (List Value)) (withNames : Option Bool)
    (pageSize : Option Int) (pagingState : Option CBytes)
    (serialConsistency : Option Consistency) (timestamp : Option Int)
    (h : c.tcp.cloneOk = false) :
    CDRS.start c = ⟨Except.error Err.ioClone, c.tcp, []⟩ ∧
    CDRS.options c = ⟨Except.error Err.ioClone, c.tcp, []⟩ ∧
    CDRS.prepare c q = ⟨Except.error Err.ioClone, c.tcp, []⟩ ∧
    CDRS.execute c id qp = ⟨Except.error Err.ioClone, c.tcp, []⟩ ∧
    CDRS.query c q2 consistency values withNames pageSize pagingState
      serialConsistency timestamp = ⟨Except.error Err.ioClone, c.tcp, []⟩ := by
  unfold CDRS.start CDRS.options CDRS.prepare CDRS.execute CDRS.query CDRS.roundTrip
  rw [h]
  simp

/-- Development note on CDRS::new (its timing behaviour is outside this
embedding): the connect targets the address with the default plain
transport port 9042 appended, a connect failure is returned as the
IoError of the connect attempt, and a successful connect yields the
facade over the new socket. -/
theorem new_port_9042_and_error (net : String → Except Err TcpStream)
    (addr : String) :
    (∀ e, net (addr ++ ":9042") = Except.error e →
      CDRS.new net addr = Except.error e) ∧
    (∀ t, net (addr ++ ":9042") = Except.ok t →
      CDRS.new net addr = Except.ok ⟨t⟩) := by
  constructor <;> intro x hx <;> unfold CDRS.new <;> rw [hx] <;> rfl

/-- C10 witness at a concrete facade whose clone fails. -/
theorem clone_fail_no_bytes_witness :
    CDRS.start ⟨tcpCloneFail⟩ = ⟨Except.error Err.ioClone, tcpCloneFail, []⟩ ∧
    CDRS.options ⟨tcpCloneFail⟩ = ⟨Except.error Err.ioClone, tcpCloneFail, []⟩ ∧
    CDRS.prepare ⟨tcpCloneFail⟩ "SELECT" =
      ⟨Except.error Err.ioClone, tcpCloneFail, []⟩ ∧
    CDRS.execute ⟨tcpCloneFail⟩ [] qp0 =
      ⟨Except.error Err.ioClone, tcpCloneFail, []⟩ ∧
    CDRS.query ⟨tcpCloneFail⟩ "SELECT" Consistency.one Option.none Option.none
      Option.none Option.none Option.none Option.none =
      ⟨Except.error Err.ioClone, tcpCloneFail, []⟩ :=
  clone_fail_no_bytes ⟨tcpCloneFail⟩ "SELECT" "SELECT" [] qp0 Consistency.one
    Option.none Option.none Option.none Option.none Option.none Option.none rfl

end Cdrs
